import Mathlib

/-!
Shallow embedding of the FiftyOne front-end presentation layer
(`SamplesContainer.tsx`, `Dataset.tsx`, the `Teams` lead-capture form),
with theorems checking the specification's claims about the
Field Classifier, the View State Synchronizer, the Layout Reflow
Controller and the lead-capture form.
-/

namespace FiftyOne

/-! ## Field Classifier (`SamplesContainer.tsx`, `DisplayOptionsWrapper`)

The classifier loop iterates over `labelNames`; for each `name`:

  if (VALID_LABEL_TYPES.includes(labelTypes[name]))      → labels
  else if (VALID_SCALAR_TYPES.includes(fieldSchema[name])) → scalars
  else                                                    → unsupported

`labelTypes` / `fieldSchema` are JS objects: a missing key yields
`undefined`, and `includes(undefined)` is `false` for an array of
strings.  We model both lookups as `String → Option String` and the
two allow-lists as parameters (they are imported from
`utils/labels`). -/

/-- JS `allow.includes(lookup[name])`: a missing key (`none`) is never a
member of an array of strings. -/
def includesOpt (allow : List String) : Option String → Bool
  | none => false
  | some t => allow.contains t

/-- The `labelNameGroups` object built by the classifier loop.  The
`labels` group keeps the `type` field pushed alongside the name
(`{ name, type: labelTypes[name] }`); the other two groups push bare
`{ name }` records. -/
structure LabelNameGroups where
  labels : List (String × Option String)
  scalars : List String
  unsupported : List String
deriving DecidableEq, Repr

/-- The classifier loop of `DisplayOptionsWrapper`
(`SamplesContainer.tsx` lines 83–96), written as structural recursion
over the list of names; each name is appended to exactly one group in
input order. -/
def classifyFields (validLabels validScalars : List String)
    (labelTypes fieldSchema : String → Option String) :
    List String → LabelNameGroups
  | [] => ⟨[], [], []⟩
  | name :: rest =>
    let g := classifyFields validLabels validScalars labelTypes fieldSchema rest
    if includesOpt validLabels (labelTypes name) then
      { g with labels := (name, labelTypes name) :: g.labels }
    else if includesOpt validScalars (fieldSchema name) then
      { g with scalars := name :: g.scalars }
    else
      { g with unsupported := name :: g.unsupported }

/-- Names appearing in the `labels` group. -/
def LabelNameGroups.labelNames (g : LabelNameGroups) : List String :=
  g.labels.map Prod.fst

section Classifier

variable (validLabels validScalars : List String)
    (labelTypes fieldSchema : String → Option String)

/-- The `labels` group is exactly the input filtered to names whose
declared label type is allow-listed, in input order. -/
theorem labelNames_eq_filter (names : List String) :
    (classifyFields validLabels validScalars labelTypes fieldSchema
        names).labelNames =
      names.filter (fun n => includesOpt validLabels (labelTypes n)) := by
  induction names with
  | nil => rfl
  | cons name rest ih =>
    by_cases h₁ : includesOpt validLabels (labelTypes name) = true
    · simp [classifyFields, LabelNameGroups.labelNames, h₁,
        List.filter_cons] at ih ⊢
      exact ih
    · by_cases h₂ : includesOpt validScalars (fieldSchema name) = true <;>
        simpa [classifyFields, LabelNameGroups.labelNames, h₁, h₂,
          List.filter_cons] using ih

/-- The `scalars` group is exactly the input filtered to names whose
label type is not allow-listed but whose schema type is, in input
order. -/
theorem scalars_eq_filter (names : List String) :
    (classifyFields validLabels validScalars labelTypes fieldSchema
        names).scalars =
      names.filter (fun n => !includesOpt validLabels (labelTypes n) &&
        includesOpt validScalars (fieldSchema n)) := by
  induction names with
  | nil => rfl
  | cons name rest ih =>
    by_cases h₁ : includesOpt validLabels (labelTypes name) = true
    · simpa [classifyFields, h₁, List.filter_cons] using ih
    · by_cases h₂ : includesOpt validScalars (fieldSchema name) = true <;>
        simpa [classifyFields, h₁, h₂, List.filter_cons] using ih

/-- The `unsupported` group is exactly the input filtered to names with
neither declared type allow-listed, in input order. -/
theorem unsupported_eq_filter (names : List String) :
    (classifyFields validLabels validScalars labelTypes fieldSchema
        names).unsupported =
      names.filter (fun n => !includesOpt validLabels (labelTypes n) &&
        !includesOpt validScalars (fieldSchema n)) := by
  induction names with
  | nil => rfl
  | cons name rest ih =>
    by_cases h₁ : includesOpt validLabels (labelTypes name) = true
    · simpa [classifyFields, h₁, List.filter_cons] using ih
    · by_cases h₂ : includesOpt validScalars (fieldSchema name) = true <;>
        simpa [classifyFields, h₁, h₂, List.filter_cons] using ih

/-- A name is in the `labels` group iff it occurs in the input and its
declared label type is allow-listed. -/
theorem mem_labels_iff (names : List String) (n : String) :
    n ∈ (classifyFields validLabels validScalars labelTypes fieldSchema
          names).labelNames ↔
      n ∈ names ∧ includesOpt validLabels (labelTypes n) = true := by
  rw [labelNames_eq_filter]
  simp [List.mem_filter]

/-- A name is in the `scalars` group iff it occurs in the input, its
label type is not allow-listed, and its schema type is allow-listed. -/
theorem mem_scalars_iff (names : List String) (n : String) :
    n ∈ (classifyFields validLabels validScalars labelTypes fieldSchema
          names).scalars ↔
      n ∈ names ∧ includesOpt validLabels (labelTypes n) = false ∧
        includesOpt validScalars (fieldSchema n) = true := by
  rw [scalars_eq_filter]
  simp [List.mem_filter]

/-- A name is in the `unsupported` group iff it occurs in the input and
neither of its declared types is allow-listed. -/
theorem mem_unsupported_iff (names : List String) (n : String) :
    n ∈ (classifyFields validLabels validScalars labelTypes fieldSchema
          names).unsupported ↔
      n ∈ names ∧ includesOpt validLabels (labelTypes n) = false ∧
        includesOpt validScalars (fieldSchema n) = false := by
  rw [unsupported_eq_filter]
  simp [List.mem_filter]

end Classifier

/-! ## `getDisplayOptions` (`SamplesContainer.tsx` lines 56–63)

    const getDisplayOptions = (values, counts, selected) => {
      return [...values].sort().map(({ name, type }) => ({
        name, type, count: counts[name], selected: Boolean(selected[name]),
      }));
    };

`values` is an array of plain objects `{ name, type }`.
`Array.prototype.sort()` with no comparator compares elements by their
string conversion; `String` of a plain object is the constant
`"[object Object]"`, so every pair of elements compares equal, and the
(mandated-stable) sort leaves the array in its original order. -/

/-- A `{ name, type }` entry handed to `getDisplayOptions`. -/
structure Entry where
  name : String
  type : Option String
deriving DecidableEq, Repr

/-- JS `String(entry)` for a plain object: the constant
`"[object Object]"`. -/
def jsEntryToString (_ : Entry) : String :=
  "[object Object]"

/-- Stable insertion of `x` into a sorted tail: `x` is placed before
`y` only when its key is strictly smaller, so elements with equal keys
keep their original relative order. -/
def insertByKey (key : Entry → String) (x : Entry) : List Entry → List Entry
  | [] => [x]
  | y :: ys => if key x ≤ key y then x :: y :: ys else y :: insertByKey key x ys

/-- Stable insertion sort by a string key, modelling JS
`Array.prototype.sort()` with the default (string-conversion)
comparator. -/
def jsSort (key : Entry → String) : List Entry → List Entry
  | [] => []
  | x :: xs => insertByKey key x (jsSort key xs)

/-- A derived `DisplayOption` record.  `counts[name]` on a missing key
is JS `undefined`, modelled as `none`; `Boolean(selected[name])` maps
`undefined` to `false`. -/
structure DisplayOption where
  name : String
  type : Option String
  count : Option Nat
  selected : Bool
deriving DecidableEq, Repr

/-- `getDisplayOptions`: copy the array, default-sort it, and map every
entry to a `DisplayOption` merged with counts and selection state. -/
def getDisplayOptions (values : List Entry) (counts : String → Option Nat)
    (selected : String → Bool) : List DisplayOption :=
  (jsSort jsEntryToString values).map fun e =>
    ⟨e.name, e.type, counts e.name, selected e.name⟩

/-- Inserting with the constant JS object key puts the element in
front: its key is never strictly greater than the head's. -/
theorem insertByKey_const (x : Entry) (l : List Entry) :
    insertByKey jsEntryToString x l = x :: l := by
  cases l with
  | nil => rfl
  | cons y ys => simp [insertByKey, jsEntryToString]

/-- The default sort is the identity on arrays of plain objects: all
string keys are equal and the sort is stable. -/
theorem jsSort_entries_id (l : List Entry) :
    jsSort jsEntryToString l = l := by
  induction l with
  | nil => rfl
  | cons x xs ih => rw [jsSort, ih, insertByKey_const]

/-! ## Layout Reflow Controller (`SamplesContainer.tsx` lines 73–79)

    const updateSidebarHeight = () => {
      if (sidebarRef.current) {
        setSidebarHeight(
          window.innerHeight - sidebarRef.current.getBoundingClientRect().top
        );
      }
    };

The `sidebarHeight` state starts as the string `"unset"` and is later a
number, modelled by a sum type. -/

/-- The `sidebarHeight` React state: initially the string `"unset"`,
afterwards a pixel count. -/
inductive SidebarHeight where
  | unset
  | px (h : Int)
deriving DecidableEq, Repr

/-- The part of `getBoundingClientRect()` the handler reads: the
element's top offset in the viewport. -/
structure PanelRect where
  top : Int
deriving DecidableEq, Repr

/-- `updateSidebarHeight`, as a transition on the stored height.
`sidebarRef.current` is `none` while the element is unattached, in
which case the guard skips the update. -/
def updateSidebarHeight (innerHeight : Int) (sidebarRefCurrent : Option PanelRect)
    (h : SidebarHeight) : SidebarHeight :=
  match sidebarRefCurrent with
  | some el => .px (innerHeight - el.top)
  | none => h

/-! ## View State Synchronizer (`Dataset.tsx`, `Dataset` route)

    const { dataset } = usePreloadedQuery(Query, prepared);
    const name = useRecoilValue(datasetName);
    if (!dataset) { throw new NotFoundError(window.location.pathname); }
    const update = useStateUpdate();
    useEffect(() => { update({ dataset: transformDataset(dataset) }); },
      [dataset]);
    if (!name) { return null; }
    return <DatasetComponent />;

One render pass is modelled as a function from the query result and
the component state to `Except` (a thrown `NotFoundError`) or the
state after React has committed the render and run the effect.  The
effect's dependency array is `[dataset]`: React re-runs it only when
`dataset` differs (by identity) from the previous render's dependency,
recorded in `prevDep` (`none` before the first effect run).
`transformDataset` lives in a separate module and is passed as a
parameter; the claims here do not depend on its behaviour. -/

/-- The identity of a fetched dataset description.  Equality models JS
reference/`Object.is` identity of the query result. -/
structure DatasetDescription where
  id : String
  name : String
deriving DecidableEq, Repr

/-- What the route renders: `null` or the `DatasetComponent`. -/
inductive RenderedView where
  | nullView
  | datasetComponent
deriving DecidableEq, Repr

/-- Component-visible state across render passes: the dataset published
to the shared store (via `useStateUpdate`) and the `useEffect`
dependency recorded at the last effect run. -/
structure DatasetRouteState where
  published : Option DatasetDescription
  prevDep : Option DatasetDescription
deriving DecidableEq, Repr

/-- JS truthiness of a possibly-absent string: `undefined`, `null` and
`""` are falsy. -/
def jsTruthyStr : Option String → Bool
  | none => false
  | some s => s.length != 0

/-- One render pass of the `Dataset` route.  A `none` query result
throws `NotFoundError(pathname)` before any hook below the guard runs,
so no state update is published.  Otherwise the effect publishes
`transform dataset` exactly when the dependency changed, and the view
is `null` when `name` is falsy.  The returned `Bool` records whether
the effect fired (the `update` call was made) in this pass. -/
def datasetRoute (transform : DatasetDescription → DatasetDescription)
    (dataset : Option DatasetDescription) (name : Option String)
    (pathname : String) (s : DatasetRouteState) :
    Except String (DatasetRouteState × Bool × RenderedView) :=
  match dataset with
  | none => .error ("NotFoundError: " ++ pathname)
  | some d =>
    let view := if jsTruthyStr name then RenderedView.datasetComponent
      else RenderedView.nullView
    if s.prevDep = some d then .ok (s, false, view)
    else .ok ({ published := some (transform d), prevDep := some d }, true, view)

/-! ## Lead-capture form (`Teams`)

The six free-text fields, the submit-button label, the shared
`teams.submitted` atom and the `appTeamsIsOpen` atom, plus the
externally visible actions of one `submit()` call. -/

/-- The `formState` React state: six free-text fields. -/
structure FormState where
  email : String
  firstname : String
  lastname : String
  company : String
  role : String
  discover : String
deriving DecidableEq, Repr

/-- The state a `submit()` call can read or write. -/
structure TeamsPageState where
  formState : FormState
  submitText : String
  teamsSubmitted : Bool
  isOpen : Bool
deriving DecidableEq, Repr

/-- The outcome of the `fetch` to the marketing endpoint: a response
with an HTTP status whose body parses (or not) as JSON, or a network
exception. -/
inductive FetchOutcome where
  | response (status : Nat) (jsonOk : Bool)
  | networkError
deriving DecidableEq, Repr

/-- Externally visible actions of one `submit()` call: how many
requests went to the marketing endpoint, how many to the internal
tracking endpoint, and whether the delayed close was scheduled. -/
structure SubmitEffects where
  marketingRequests : Nat
  trackingRequests : Nat
  closeScheduled : Bool
deriving DecidableEq, Repr

/-- The submit button's `disabled` expression:

    !(formState.email?.length && formState.firstname?.length &&
      formState.lastname?.length) || teams.submitted -/
def submitDisabled (fs : FormState) (teamsSubmitted : Bool) : Bool :=
  !(fs.email.length != 0 && fs.firstname.length != 0 &&
    fs.lastname.length != 0) || teamsSubmitted

/-- One `submit()` call, resolved against a fetch outcome.  The label
is set to `"Submitting..."` up front and exactly one request goes to
the marketing endpoint.  A status other than 200 throws before the
body is parsed; a 200 response whose body parses runs the success
chain (success label, `teams.submitted := true`, one tracking request,
close scheduled after 2s); everything else reaches the `catch`, which
only sets the failure label. -/
def submit (outcome : FetchOutcome) (s : TeamsPageState) :
    TeamsPageState × SubmitEffects :=
  let s₀ := { s with submitText := "Submitting..." }
  let failed : TeamsPageState × SubmitEffects :=
    ({ s₀ with submitText := "Something went wrong" }, ⟨1, 0, false⟩)
  match outcome with
  | .response status jsonOk =>
    if status = 200 then
      if jsonOk then
        let succeeded := { s₀ with
          submitText := "Submitted. Thank you!"
          teamsSubmitted := true }
        (succeeded, ⟨1, 1, true⟩)
      else failed
    else failed
  | .networkError => failed

/-- A fetch outcome reaches the `catch` branch iff it is not a 200
response with a JSON body. -/
def FetchOutcome.isFailure : FetchOutcome → Bool
  | .response status jsonOk => !(decide (status = 200) && jsonOk)
  | .networkError => true

/-! ## Claims -/

/-- C1: for every input list of field names with a label-type lookup
and a schema-type lookup, the three classifier groups are pairwise
disjoint and their union equals the input name set: each name of the
input belongs to exactly one group. -/
theorem classifier_groups_partition_names
    (validLabels validScalars : List String)
    (labelTypes fieldSchema : String → Option String)
    (names : List String) (n : String) :
    ((n ∈ (classifyFields validLabels validScalars labelTypes fieldSchema
          names).labelNames ∨
        n ∈ (classifyFields validLabels validScalars labelTypes fieldSchema
          names).scalars ∨
        n ∈ (classifyFields validLabels validScalars labelTypes fieldSchema
          names).unsupported) ↔ n ∈ names) ∧
    ¬(n ∈ (classifyFields validLabels validScalars labelTypes fieldSchema
          names).labelNames ∧
      n ∈ (classifyFields validLabels validScalars labelTypes fieldSchema
          names).scalars) ∧
    ¬(n ∈ (classifyFields validLabels validScalars labelTypes fieldSchema
          names).labelNames ∧
      n ∈ (classifyFields validLabels validScalars labelTypes fieldSchema
          names).unsupported) ∧
    ¬(n ∈ (classifyFields validLabels validScalars labelTypes fieldSchema
          names).scalars ∧
      n ∈ (classifyFields validLabels validScalars labelTypes fieldSchema
          names).unsupported) := by
  simp only [mem_labels_iff, mem_scalars_iff, mem_unsupported_iff]
  constructor
  · constructor
    · rintro (⟨h, _⟩ | ⟨h, _⟩ | ⟨h, _⟩) <;> exact h
    · intro h
      rcases hl : includesOpt validLabels (labelTypes n) with _ | _
      · rcases hs : includesOpt validScalars (fieldSchema n) with _ | _
        · exact Or.inr (Or.inr ⟨h, rfl, rfl⟩)
        · exact Or.inr (Or.inl ⟨h, rfl, rfl⟩)
      · exact Or.inl ⟨h, rfl⟩
  · refine ⟨?_, ?_, ?_⟩
    · rintro ⟨⟨_, hl⟩, _, hl', _⟩
      simp [hl] at hl'
    · rintro ⟨⟨_, hl⟩, _, hl', _⟩
      simp [hl] at hl'
    · rintro ⟨⟨_, _, hs⟩, _, _, hs'⟩
      simp [hs] at hs'

/-- C2: a field whose declared label type is allow-listed is classified
into `labels`; otherwise, a field whose declared schema type is
allow-listed is classified into `scalars`; otherwise — including a
name absent from both lookups, whose lookups are `none` and thus never
allow-listed — it is classified into `unsupported`. -/
theorem classifier_classification_rule
    (validLabels validScalars : List String)
    (labelTypes fieldSchema : String → Option String)
    (names : List String) (n : String) (hn : n ∈ names) :
    (includesOpt validLabels (labelTypes n) = true →
      n ∈ (classifyFields validLabels validScalars labelTypes fieldSchema
        names).labelNames) ∧
    (includesOpt validLabels (labelTypes n) = false →
      includesOpt validScalars (fieldSchema n) = true →
      n ∈ (classifyFields validLabels validScalars labelTypes fieldSchema
        names).scalars) ∧
    (includesOpt validLabels (labelTypes n) = false →
      includesOpt validScalars (fieldSchema n) = false →
      n ∈ (classifyFields validLabels validScalars labelTypes fieldSchema
        names).unsupported) := by
  refine ⟨fun hl => ?_, fun hl hs => ?_, fun hl hs => ?_⟩
  · exact (mem_labels_iff _ _ _ _ _ _).mpr ⟨hn, hl⟩
  · exact (mem_scalars_iff _ _ _ _ _ _).mpr ⟨hn, hl, hs⟩
  · exact (mem_unsupported_iff _ _ _ _ _ _).mpr ⟨hn, hl, hs⟩

/-- Witness for C2: the spec's end-to-end example.  Fields `tags`
(label type `Classification`), `confidence` (schema type `float`) and
`blob` (schema type `UnknownType`) with allow-lists
`labels = {Classification}`, `scalars = {float}`: the classification
rule puts `blob` (not allow-listed in either lookup) in
`unsupported`. -/
theorem classifier_classification_rule_witness :
    "blob" ∈ (classifyFields ["Classification"] ["float"]
      (fun n => if n = "tags" then some "Classification" else none)
      (fun n => if n = "confidence" then some "float"
        else if n = "blob" then some "UnknownType" else none)
      ["tags", "confidence", "blob"]).unsupported :=
  (classifier_classification_rule ["Classification"] ["float"]
    (fun n => if n = "tags" then some "Classification" else none)
    (fun n => if n = "confidence" then some "float"
      else if n = "blob" then some "UnknownType" else none)
    ["tags", "confidence", "blob"] "blob" (by decide)).2.2
    (by decide) (by decide)

/-- The spec's end-to-end classifier example, checked by evaluation:
`labels = [tags]`, `scalars = [confidence]`, `unsupported = [blob]`. -/
theorem classifyFields_spec_example :
    classifyFields ["Classification"] ["float"]
      (fun n => if n = "tags" then some "Classification" else none)
      (fun n => if n = "confidence" then some "float"
        else if n = "blob" then some "UnknownType" else none)
      ["tags", "confidence", "blob"] =
      ⟨[("tags", some "Classification")], ["confidence"], ["blob"]⟩ := by
  decide

/-- C3 (refuted): `getDisplayOptions` does not sort its output by name.
`[...values].sort()` is called on an array of plain objects, every one
of which stringifies to `"[object Object]"`, so the default sort
compares all elements equal and (being stable) leaves the input order
intact: names `["b", "a"]` come out as `["b", "a"]`, not sorted
ascending. -/
theorem getDisplayOptions_not_sorted_by_name :
    (getDisplayOptions [⟨"b", none⟩, ⟨"a", none⟩] (fun _ => none)
        (fun _ => false)).map DisplayOption.name = ["b", "a"] ∧
      ("b" :: ["a"]) ≠ ["a", "b"] := by
  constructor
  · rw [getDisplayOptions, jsSort_entries_id]
    rfl
  · decide

/-- `getDisplayOptions` preserves the input order of its entries: the
default JS sort of an array of plain objects is the identity. -/
theorem getDisplayOptions_eq_map (values : List Entry)
    (counts : String → Option Nat) (selected : String → Bool) :
    getDisplayOptions values counts selected =
      values.map fun e => ⟨e.name, e.type, counts e.name, selected e.name⟩ := by
  rw [getDisplayOptions, jsSort_entries_id]

/-- C4: with the panel's backing element attached, the layout recompute
stores available height `viewport height − top offset`; in particular
viewport 800 with top offset 100 yields 700. -/
theorem updateSidebarHeight_attached :
    (∀ (v t : Int) (h : SidebarHeight),
      updateSidebarHeight v (some ⟨t⟩) h = .px (v - t)) ∧
    updateSidebarHeight 800 (some ⟨100⟩) .unset = .px 700 := by
  refine ⟨fun v t h => rfl, ?_⟩
  decide

/-- C5: with the backing element not attached (`sidebarRef.current`
absent), the recompute is a total no-op: it returns normally and the
stored height is unchanged. -/
theorem updateSidebarHeight_unmounted (v : Int) (h : SidebarHeight) :
    updateSidebarHeight v none h = h :=
  rfl

/-- C6: when the query reports not-found (`dataset` is `null`), the
route render throws `NotFoundError` — the result is the propagated
error, never an `ok` carrying a state update, so the synchronizer's
publish step does not run. -/
theorem datasetRoute_notFound_propagates
    (transform : DatasetDescription → DatasetDescription)
    (name : Option String) (pathname : String) (s : DatasetRouteState) :
    datasetRoute transform none name pathname s =
      .error ("NotFoundError: " ++ pathname) :=
  rfl

/-- C7: the publish step fires at most once per distinct incoming
dataset description: after any successful render pass with dataset `d`,
a second render pass with the same `d` leaves the state untouched and
does not fire the effect (`fired = false`). -/
theorem datasetRoute_publishes_once
    (transform : DatasetDescription → DatasetDescription)
    (d : DatasetDescription) (name : Option String) (pathname : String)
    (s s' : DatasetRouteState) (fired : Bool) (v : RenderedView)
    (h : datasetRoute transform (some d) name pathname s =
      .ok (s', fired, v)) :
    datasetRoute transform (some d) name pathname s' =
      .ok (s', false, v) := by
  simp only [datasetRoute] at h ⊢
  by_cases hp : s.prevDep = some d
  · rw [if_pos hp] at h
    simp only [Except.ok.injEq, Prod.mk.injEq] at h
    obtain ⟨rfl, -, rfl⟩ := h
    rw [if_pos hp]
  · rw [if_neg hp] at h
    simp only [Except.ok.injEq, Prod.mk.injEq] at h
    obtain ⟨rfl, -, rfl⟩ := h
    rw [if_pos rfl]

/-- Witness for C7: a concrete second render pass with the same
dataset returns the state of the first pass unchanged and does not
fire the effect. -/
theorem datasetRoute_publishes_once_witness :
    datasetRoute id (some ⟨"1", "d"⟩) (some "d") "/p"
        ⟨some ⟨"1", "d"⟩, some ⟨"1", "d"⟩⟩ =
      .ok (⟨some ⟨"1", "d"⟩, some ⟨"1", "d"⟩⟩, false, .datasetComponent) :=
  datasetRoute_publishes_once id ⟨"1", "d"⟩ (some "d") "/p"
    ⟨none, none⟩ ⟨some ⟨"1", "d"⟩, some ⟨"1", "d"⟩⟩ true
    .datasetComponent rfl

/-- C8: with an empty `firstname` the submit button is disabled
whatever the other fields hold; and the button is enabled only when
`firstname`, `lastname` and `email` are all non-empty. -/
theorem submitDisabled_requires_contact_fields :
    (∀ (fs : FormState) (sub : Bool), fs.firstname = "" →
      submitDisabled fs sub = true) ∧
    (∀ (fs : FormState) (sub : Bool), submitDisabled fs sub = false →
      fs.firstname ≠ "" ∧ fs.lastname ≠ "" ∧ fs.email ≠ "") := by
  constructor
  · intro fs sub h
    simp [submitDisabled, h]
  · intro fs sub h
    simp only [submitDisabled, Bool.or_eq_false_iff, Bool.not_eq_false',
      Bool.and_eq_true, bne_iff_ne, ne_eq] at h
    obtain ⟨⟨⟨he, hf⟩, hl⟩, -⟩ := h
    refine ⟨fun h' => hf ?_, fun h' => hl ?_, fun h' => he ?_⟩ <;>
      simp [h']

/-- Witness for C8: a concrete form state with empty `firstname` and
every other field non-empty has a disabled submit button. -/
theorem submitDisabled_requires_contact_fields_witness :
    submitDisabled ⟨"e@x.co", "", "Last", "Co", "Role", "Web"⟩ false = true :=
  submitDisabled_requires_contact_fields.1
    ⟨"e@x.co", "", "Last", "Co", "Role", "Web"⟩ false rfl

/-- C9: on any failing fetch outcome (non-200 status or a network
exception) the handler sets the failure label, issues exactly one
marketing request (no retry), and runs none of the success actions:
no tracking request, no scheduled close, `teams.submitted`
untouched. -/
theorem submit_failure_no_success_actions (s : TeamsPageState)
    (o : FetchOutcome) (h : o.isFailure = true) :
    (submit o s).1.submitText = "Something went wrong" ∧
    (submit o s).2.marketingRequests = 1 ∧
    (submit o s).2.trackingRequests = 0 ∧
    (submit o s).2.closeScheduled = false ∧
    (submit o s).1.teamsSubmitted = s.teamsSubmitted := by
  cases o with
  | networkError => exact ⟨rfl, rfl, rfl, rfl, rfl⟩
  | response status jsonOk =>
    by_cases h200 : status = 200
    · subst h200
      cases jsonOk with
      | false => exact ⟨rfl, rfl, rfl, rfl, rfl⟩
      | true => simp [FetchOutcome.isFailure] at h
    · simp [submit, h200]

/-- Witness for C9: a concrete 404 response leaves `teams.submitted`
false and performs no success action. -/
theorem submit_failure_no_success_actions_witness :
    (submit (.response 404 true)
        ⟨⟨"e", "f", "l", "", "", ""⟩, "Submit", false, true⟩).1.submitText =
          "Something went wrong" ∧
    (submit (.response 404 true)
        ⟨⟨"e", "f", "l", "", "", ""⟩, "Submit", false, true⟩).2.marketingRequests = 1 ∧
    (submit (.response 404 true)
        ⟨⟨"e", "f", "l", "", "", ""⟩, "Submit", false, true⟩).2.trackingRequests = 0 ∧
    (submit (.response 404 true)
        ⟨⟨"e", "f", "l", "", "", ""⟩, "Submit", false, true⟩).2.closeScheduled = false ∧
    (submit (.response 404 true)
        ⟨⟨"e", "f", "l", "", "", ""⟩, "Submit", false, true⟩).1.teamsSubmitted = false :=
  submit_failure_no_success_actions
    ⟨⟨"e", "f", "l", "", "", ""⟩, "Submit", false, true⟩
    (.response 404 true) (by decide)

/-- C10: on a failing fetch outcome the resulting page state differs
from the old one only in the submit-button label: `teams.submitted`,
the form-open flag and all six form field values are unchanged. -/
theorem submit_failure_frame (s : TeamsPageState) (o : FetchOutcome)
    (h : o.isFailure = true) :
    (submit o s).1.teamsSubmitted = s.teamsSubmitted ∧
    (submit o s).1.isOpen = s.isOpen ∧
    (submit o s).1.formState = s.formState ∧
    (submit o s).1 = { s with submitText := "Something went wrong" } := by
  cases o with
  | networkError => exact ⟨rfl, rfl, rfl, rfl⟩
  | response status jsonOk =>
    by_cases h200 : status = 200
    · subst h200
      cases jsonOk with
      | false => exact ⟨rfl, rfl, rfl, rfl⟩
      | true => simp [FetchOutcome.isFailure] at h
    · simp [submit, h200]

/-- Witness for C10: a concrete network exception changes only the
submit-button label. -/
theorem submit_failure_frame_witness :
    (submit .networkError
        ⟨⟨"a", "b", "c", "d", "e", "f"⟩, "Submit", false, true⟩).1 =
      { formState := ⟨"a", "b", "c", "d", "e", "f"⟩,
        submitText := "Something went wrong",
        teamsSubmitted := false, isOpen := true } :=
  (submit_failure_frame
    ⟨⟨"a", "b", "c", "d", "e", "f"⟩, "Submit", false, true⟩
    .networkError rfl).2.2.2

end FiftyOne
